import Mathlib

set_option linter.unusedVariables false

/-! Shallow embedding of the science-build-rules build-rule engine: the
Singularity and Anaconda plan generators (`buildrules/singularity.py`,
`buildrules/anaconda.py`) and the deployment dispatcher
(`buildrules/common/deployer.py`), together with the configuration
fingerprinting discipline they share.  Filesystem, network and external
process effects are represented as rule payloads; the per-builder rule
generation logic is embedded as pure functions. -/

/-- First-match lookup in an association list, mirroring Python dict
access (`d[k]` / `d.get(k)`); configuration dicts have unique keys. -/
def lookupAssoc {α : Type} : List (String × α) → String → Option α
  | [], _ => none
  | (k, v) :: rest, key => if k = key then some v else lookupAssoc rest key

/-- `defaultdict(list)`-style accumulation used when merging command
collections: `commands[keyname] = commands[keyname] + item` appends to an
existing key and adds a fresh key at the end in insertion order. -/
def updateAssoc : List (String × List String) → String → List String → List (String × List String)
  | [], key, items => [(key, items)]
  | (k, v) :: rest, key, items =>
      if k = key then (k, v ++ items) :: rest else (k, v) :: updateAssoc rest key items

/-- Insertion step for key-sorting an association list. -/
def insertPairByKey {α : Type} (p : String × α) : List (String × α) → List (String × α)
  | [] => [p]
  | q :: rest => if p.1 < q.1 then p :: q :: rest else q :: insertPairByKey p rest

/-- Sort an association list by key.  Modelled from the spec: the
fingerprinter canonicalizes a configuration mapping by sorting keys
recursively before hashing, so key insertion order never affects the
fingerprint. -/
def sortPairsByKey {α : Type} : List (String × α) → List (String × α)
  | [] => []
  | p :: rest => insertPairByKey p (sortPairsByKey rest)

/-! ### Fingerprints

`calculate_dict_checksum` lives in `buildrules/common/utils.py`, which is
not part of the given sources.  Modelled from the spec: it is a
deterministic, key-order-independent, cryptographic-strength (collision
free in practice) hash of the configuration mapping.  We model such an
ideal hash as an injective function of the canonicalized configuration:
the fingerprint value *is* the canonical configuration record.  The
top-level keys of each hashed mapping are fixed per builder, so the record
fields play the role of the sorted top-level keys; the one nested dict
(the merged Singularity command dict) is key-sorted explicitly.  Optional
fields model keys that are present in the hashed dict only when the
configuration entry set them. -/

/-- The exact data hashed by `_create_environment_config` in
`anaconda.py`: the fully-defaulted environment entry plus the derived
`environment_name`, before `checksum`/`checksum_small` are added. -/
structure EnvHashSource where
  name : String
  version : String
  miniconda : Bool
  python_version : Nat
  installer_version : String
  pip_packages : List String
  conda_packages : List String
  environment_name : String
deriving DecidableEq, Repr

/-- Deterministic rendering of an environment fingerprint, standing in for
the hash digest string; only used where the code embeds the digest in a
path or a name. -/
def renderEnvChecksum (h : EnvHashSource) : String :=
  h.name ++ "|" ++ h.version ++ "|" ++ (if h.miniconda then "T" else "F") ++ "|" ++
    toString h.python_version ++ "|" ++ h.installer_version ++ "|" ++
    String.intercalate "," h.pip_packages ++ "|" ++
    String.intercalate "," h.conda_packages ++ "|" ++ h.environment_name

/-- The exact data hashed by `_get_image_config` in `singularity.py`: the
defaulted entry (with `tags`, `command_collections` and `flag_collections`
already popped), the derived `module_name`, and the merged `commands`
dict.  `flags`, `nameformat`, `docker_url`, `checksum_small` are added to
the config only after hashing and are therefore absent here; in
particular the flag-collection contents are not hashed.  The `commands`
field is stored key-sorted (canonicalized). -/
structure ImageHashSource where
  registry : String
  docker_user : String
  docker_image : String
  tag : String
  name : String
  debug : Option Bool
  «sudo» : Option Bool
  fakeroot : Option Bool
  module_versions : Option (List String)
  module_name : String
  commands : List (String × List String)
deriving DecidableEq, Repr

/-- Deterministic rendering of an image fingerprint (stand-in digest
string); it feeds `checksum_small` and thence path names. -/
def renderImageChecksum (h : ImageHashSource) : String :=
  h.registry ++ "|" ++ h.docker_user ++ "|" ++ h.docker_image ++ "|" ++ h.tag ++ "|" ++
    h.name ++ "|" ++ h.module_name ++ "|" ++
    String.intercalate ";" (h.commands.map (fun p => p.1 ++ ":" ++ String.intercalate "," p.2))

/-! ### Configuration entries and derived configs -/

/-- One entry of the `environments` list of the Anaconda build config.
`none` models a key absent from the YAML entry (schema defaults are
applied by `_create_environment_config`, not by the schema reader). -/
structure EnvironmentDefinition where
  name : String
  version : String
  miniconda : Option Bool := none
  python_version : Option Nat := none
  installer_version : Option String := none
  pip_packages : Option (List String) := none
  conda_packages : Option (List String) := none
deriving DecidableEq, Repr

/-- The environment config computed by `_create_environment_config`:
defaults applied, `environment_name` derived, fingerprint and its short
form attached. -/
structure EnvConfig where
  name : String
  version : String
  miniconda : Bool
  python_version : Nat
  installer_version : String
  pip_packages : List String
  conda_packages : List String
  environment_name : String
  checksum : EnvHashSource
  checksum_small : String
deriving DecidableEq, Repr

/-- `_create_environment_config`: deep-copy the defaults, overlay the
entry, derive `name/version`, fingerprint the result. -/
def create_environment_config (e : EnvironmentDefinition) : EnvConfig :=
  let miniconda := e.miniconda.getD true
  let python_version := e.python_version.getD 3
  let installer_version := e.installer_version.getD "latest"
  let pip_packages := e.pip_packages.getD []
  let conda_packages := e.conda_packages.getD []
  let environment_name := e.name ++ "/" ++ e.version
  let checksum : EnvHashSource :=
    { name := e.name, version := e.version, miniconda, python_version,
      installer_version, pip_packages, conda_packages, environment_name }
  { name := e.name, version := e.version, miniconda, python_version,
    installer_version, pip_packages, conda_packages, environment_name,
    checksum, checksum_small := (renderEnvChecksum checksum).take 8 }

/-- One entry of the `definitions` list of the Singularity build config;
`tags` is kept alongside but is popped before `_get_image_config` runs,
so it is never hashed.  `registry` is accepted as an additional property
overriding the `docker.io` default. -/
structure ImageDefinition where
  name : String
  tags : List String := []
  registry : Option String := none
  docker_user : Option String := none
  docker_image : Option String := none
  debug : Option Bool := none
  «sudo» : Option Bool := none
  fakeroot : Option Bool := none
  module_versions : Option (List String) := none
  flag_collections : Option (List String) := none
  command_collections : Option (List String) := none
deriving DecidableEq, Repr

/-- The image config computed by `_get_image_config`. -/
structure ImageConfig where
  registry : String
  docker_user : String
  docker_image : String
  tag : String
  name : String
  debug : Option Bool
  «sudo» : Option Bool
  fakeroot : Option Bool
  module_versions : Option (List String)
  module_name : String
  commands : List (String × List String)
  checksum : ImageHashSource
  checksum_small : String
  nameformat : String
  docker_url : String
  flags : String
deriving DecidableEq, Repr

/-- The record persisted per image by `_update_installed_images`: the
image config after `nameformat`, `commands` and `module_name` are popped
and the artifact paths are attached.  `checksum := none` models a loaded
record whose `checksum` key is missing or empty (`.get('checksum','')`). -/
structure StoredImage where
  registry : String := ""
  docker_user : String := ""
  docker_image : String := ""
  tag : String := ""
  name : String := ""
  debug : Option Bool := none
  «sudo» : Option Bool := none
  fakeroot : Option Bool := none
  module_versions : Option (List String) := none
  checksum : Option ImageHashSource := none
  checksum_small : String := ""
  docker_url : String := ""
  flags : String := ""
  definition_file : String := ""
  image_file : String := ""
  module_path : String := ""
deriving DecidableEq, Repr

/-! ### Rules

`LoggingRule`, `SubprocessRule` and `PythonRule` from
`buildrules/common/rule.py` (not in the given sources).  Modelled from
the spec: a Rule is a variant over a log message, an external command
with environment overrides, and a pre-bound callable; the plan's list
order is the execution order.  `PyCall` enumerates the callables the two
builders bind, with their bound arguments. -/
inductive PyCall where
  | makedirs (path : String) (mode : Option Nat)
  | writeDefinitionFile (path : String) (registry : String) (dockerUrl : String)
      (commands : List (String × List String))
  | copyFile (src : String) (dst : String)
  | updateInstalledImages (moduleName : String) (cfg : StoredImage)
  | writeModulefileCall (name : String) (tag : String) (flags : String)
      (imageFile : String) (modulePath : String)
  | osRemove (path : String)
  | cleanModulesCall
  | downloadInstallerCall (cfg : EnvConfig)
  | prepareInstallationPaths (stagePath : String) (installPath : String) (modulePath : String)
  | verifyCondarc (condaPath : String) (env : List (String × String))
  | copyDir (src : String) (dst : String)
  | updateInstalledEnvironments (name : String) (cfg : EnvConfig)
deriving DecidableEq, Repr

/-- A deferred unit of work; `subprocess` carries the command vector and
the environment overlay (all builder subprocess rules use `shell=True`,
which is therefore not modelled separately). -/
inductive Rule where
  | log (msg : String)
  | subprocess (cmd : List String) (env : List (String × String))
  | python (call : PyCall)
deriving DecidableEq, Repr

/-- Discriminator: is this rule a side-effect-free `LoggingRule`? -/
def Rule.isLog : Rule → Bool
  | .log _ => true
  | _ => false

/-! ### Singularity builder -/

/-- The builder state `SingularityBuilder` carries when generating rules:
resolved paths, global config options, the shared command/flag
collections, the registry credentials, and the loaded
`installed_images.yaml` store. -/
structure SingularityState where
  build_stage : String
  install_path : String
  module_path : String
  source_cache : String
  tmpdir : String
  uid : Nat
  auths : List (String × String × String)
  command_collections : List (String × List (String × List String))
  flag_collections : List (String × List String)
  config_debug : Option Bool := none
  config_sudo : Option Bool := none
  config_fakeroot : Option Bool := none
  remove_after_update : Option Bool := none
  installed_images : List (String × StoredImage) := []
  definitions : List ImageDefinition := []
deriving Repr

/-- The loop `for command_collection in config.pop('command_collections', [])`
of `_get_image_config`: each named collection is looked up in
`self._command_collections` (a missing name raises `KeyError`), its keys
are stripped of `_commands`, and its command lists are appended into a
`defaultdict(list)` accumulator. -/
def mergeCommands (colls : List (String × List (String × List String))) :
    List String → List (String × List String) → Except String (List (String × List String))
  | [], acc => .ok acc
  | n :: rest, acc =>
    match lookupAssoc colls n with
    | none => .error ("KeyError: " ++ n)
    | some coll =>
        mergeCommands colls rest
          (coll.foldl (fun a p => updateAssoc a (p.1.replace "_commands" "") p.2) acc)

/-- The loop `for flag_collection in config.pop('flag_collections', [])`:
`flags = flags + self._flag_collections[flag_collection]`, with a
`KeyError` on a missing name. -/
def mergeFlags (colls : List (String × List String)) :
    List String → List String → Except String (List String)
  | [], acc => .ok acc
  | n :: rest, acc =>
    match lookupAssoc colls n with
    | none => .error ("KeyError: " ++ n)
    | some fl => mergeFlags colls rest (acc ++ fl)

/-- `_get_image_config(tag, definition_dict)`: overlay the entry on the
defaults, derive `module_name`, merge command and flag collections,
fingerprint the config (before `flags`/`nameformat`/`docker_url` are
attached), then attach the derived fields. -/
def get_image_config (s : SingularityState) (tag : String) (d : ImageDefinition) :
    Except String ImageConfig := do
  let registry := d.registry.getD "docker.io"
  let docker_user := d.docker_user.getD "library"
  let docker_image := d.docker_image.getD d.name
  let module_name := d.name ++ "/" ++ tag
  let commands ← mergeCommands s.command_collections (d.command_collections.getD []) []
  let flags ← mergeFlags s.flag_collections (d.flag_collections.getD []) []
  let checksum : ImageHashSource :=
    { registry, docker_user, docker_image, tag, name := d.name,
      debug := d.debug, «sudo» := d.«sudo», fakeroot := d.fakeroot,
      module_versions := d.module_versions, module_name,
      commands := sortPairsByKey commands }
  let checksum_small := (renderImageChecksum checksum).take 8
  pure { registry, docker_user, docker_image, tag, name := d.name,
         debug := d.debug, «sudo» := d.«sudo», fakeroot := d.fakeroot,
         module_versions := d.module_versions, module_name, commands,
         checksum, checksum_small,
         nameformat := d.name ++ "-" ++ tag ++ "-" ++ checksum_small,
         docker_url := docker_user ++ "/" ++ docker_image ++ ":" ++ tag,
         flags := String.intercalate " " flags }

/-- The per-image path derivations of `_get_image_install_rules`
(`os.path.join` rendered as `/`-concatenation). -/
structure ImagePaths where
  build_path : String
  build_definition_path : String
  build_image_path : String
  stage_definition : String
  stage_image : String
  install_path : String
  install_definition_path : String
  install_image_path : String
  install_definition : String
  install_image : String
  module_path : String
deriving DecidableEq, Repr

/-- Path computations for one image, from `_get_image_install_rules`. -/
def imagePathsFor (s : SingularityState) (cfg : ImageConfig) : ImagePaths :=
  let build_path := s.build_stage ++ "/" ++ cfg.name ++ "/" ++ cfg.tag
  let build_definition_path := build_path ++ "/definitions"
  let build_image_path := build_path ++ "/images"
  let stage_definition := build_definition_path ++ "/" ++ cfg.nameformat ++ ".def"
  let stage_image := build_image_path ++ "/" ++ cfg.nameformat ++ ".simg"
  let install_path := s.install_path ++ "/" ++ cfg.name ++ "/" ++ cfg.tag
  let install_definition_path := install_path ++ "/definitions"
  let install_image_path := install_path ++ "/images"
  { build_path, build_definition_path, build_image_path, stage_definition, stage_image,
    install_path, install_definition_path, install_image_path,
    install_definition := install_definition_path ++ "/" ++ cfg.nameformat ++ ".def",
    install_image := install_image_path ++ "/" ++ cfg.nameformat ++ ".simg",
    module_path := s.module_path ++ "/" ++ cfg.name }

/-- Per-target boolean option resolution, e.g.
`image_config.get('debug', False) or self._confreader['config']['config'].get('debug', False)`:
the entry-level value (defaulting to false) is or-ed with the
builder-global value (defaulting to false). -/
def effectiveFlag (entry : Option Bool) (global : Option Bool) : Bool :=
  entry.getD false || global.getD false

/-- `singularity_build_cmd` construction: start from
`['singularity', 'build']`, insert `-d` at index 1 for debug, prepend
`sudo`, append `--fakeroot`. -/
def buildCmdFor (debug «sudo» fakeroot : Bool) : List String :=
  let c := if debug then ["singularity", "-d", "build"] else ["singularity", "build"]
  let c := if «sudo» then "sudo" :: c else c
  if fakeroot then c ++ ["--fakeroot"] else c

/-- `chown_cmd` construction: `['chown', 'uid:uid']`, with `sudo`
prepended when the sudo option is active. -/
def chownCmdFor (uid : Nat) («sudo» : Bool) : List String :=
  let c := ["chown", toString uid ++ ":" ++ toString uid]
  if «sudo» then "sudo" :: c else c

/-- `buildenv`: the Singularity cache/tmp environment plus registry
credentials when `self._auths` has an entry for the image registry. -/
def buildEnvFor (s : SingularityState) (cfg : ImageConfig) : List (String × String) :=
  [("SINGULARITY_CACHEDIR", s.source_cache), ("SINGULARITY_TMPDIR", s.tmpdir)] ++
    (match lookupAssoc s.auths cfg.registry with
     | some (u, p) => [("SINGULARITY_DOCKER_USERNAME", u), ("SINGULARITY_DOCKER_PASSWORD", p)]
     | none => [])

/-- The record handed to `_update_installed_images`: the image config
minus the popped `nameformat`/`commands`/`module_name`, plus
`definition_file`, `image_file` and `module_path`. -/
def storedFromConfig (s : SingularityState) (cfg : ImageConfig) : StoredImage :=
  let p := imagePathsFor s cfg
  { registry := cfg.registry, docker_user := cfg.docker_user,
    docker_image := cfg.docker_image, tag := cfg.tag, name := cfg.name,
    debug := cfg.debug, «sudo» := cfg.«sudo», fakeroot := cfg.fakeroot,
    module_versions := cfg.module_versions, checksum := some cfg.checksum,
    checksum_small := cfg.checksum_small, docker_url := cfg.docker_url,
    flags := cfg.flags, definition_file := p.install_definition,
    image_file := p.install_image, module_path := p.module_path }

/-- The five staging/installation `makedirs` rules emitted at the head of
the non-skip branch of `_get_image_install_rules`. -/
def singularityPrepRules (s : SingularityState) (cfg : ImageConfig) : List Rule :=
  let p := imagePathsFor s cfg
  [ .python (.makedirs p.build_definition_path none),
    .python (.makedirs p.build_image_path none),
    .python (.makedirs p.install_definition_path none),
    .python (.makedirs p.install_image_path none),
    .python (.makedirs p.module_path none) ]

/-- The `singularity build` subprocess rule of the non-skip branch. -/
def singularityBuildRule (s : SingularityState) (cfg : ImageConfig) : Rule :=
  let p := imagePathsFor s cfg
  .subprocess
    (buildCmdFor (effectiveFlag cfg.debug s.config_debug)
        (effectiveFlag cfg.«sudo» s.config_sudo)
        (effectiveFlag cfg.fakeroot s.config_fakeroot) ++
      [p.stage_image, p.stage_definition])
    (buildEnvFor s cfg)

/-- The full install sequence of the non-skip (`fresh`/`stale`) branch of
`_get_image_install_rules`: directory preparation, definition-file write,
image build (plus the conditional chown when sudo is active), copies into
the installation root, and finally the installed-images state update. -/
def imageInstallRuleSeq (s : SingularityState) (cfg : ImageConfig) : List Rule :=
  let p := imagePathsFor s cfg
  let «sudo» := effectiveFlag cfg.«sudo» s.config_sudo
  singularityPrepRules s cfg ++
  [ .log ("Writing definition file for " ++ cfg.module_name),
    .python (.writeDefinitionFile p.stage_definition cfg.registry cfg.docker_url cfg.commands) ] ++
  [ .log ("Building image for " ++ cfg.module_name),
    singularityBuildRule s cfg ] ++
  (if «sudo» then [.subprocess (chownCmdFor s.uid «sudo» ++ [p.stage_image]) []] else []) ++
  [ .log "Copying staged image to installation directory",
    .python (.copyFile p.stage_image p.install_image) ] ++
  [ .log "Copying definition file to installation directory",
    .python (.copyFile p.stage_definition p.install_definition) ] ++
  [ .log "Updating installed images",
    .python (.updateInstalledImages cfg.module_name (storedFromConfig s cfg)) ]

/-- The modulefile rules emitted for every target regardless of
classification. -/
def moduleRuleSeq (s : SingularityState) (cfg : ImageConfig) : List Rule :=
  let p := imagePathsFor s cfg
  [ .log ("Writing modulefile for " ++ cfg.module_name),
    .python (.writeModulefileCall cfg.name cfg.tag cfg.flags p.install_image p.module_path) ]

/-- `installed_images.get(module_name, {}).get('checksum', '')`: the
fingerprint recorded for a module name, `none` when the record is absent
or carries no fingerprint. -/
def installedChecksumOf (s : SingularityState) (module_name : String) :
    Option ImageHashSource :=
  (lookupAssoc s.installed_images module_name).bind (fun st => st.checksum)

/-- The per-image body of `_get_image_install_rules`, after
`_get_image_config` succeeded: classify against the installed store and
emit the log rule, the conditional install sequence, the unconditional
modulefile rules, and the policy-gated cleanup rules. -/
def imageRulesFromConfig (s : SingularityState) (cfg : ImageConfig) : List Rule :=
  let previous_image_path :=
    ((lookupAssoc s.installed_images cfg.module_name).map (fun st => st.image_file)).getD ""
  match installedChecksumOf s cfg.module_name with
  | none =>
      .log ("Image " ++ cfg.module_name ++ " is not installed. Starting installation.") ::
        (imageInstallRuleSeq s cfg ++ moduleRuleSeq s cfg)
  | some ic =>
      if ic = cfg.checksum then
        .log ("Image " ++ cfg.module_name ++ " is already installed. Skipping installation.") ::
          moduleRuleSeq s cfg
      else
        (.log ("Image " ++ cfg.module_name ++ " installed but marked for update.") ::
          (imageInstallRuleSeq s cfg ++ moduleRuleSeq s cfg)) ++
        (if s.remove_after_update.getD false then
          [ .log ("Removing old environment from " ++ previous_image_path),
            .python (.osRemove previous_image_path) ]
         else [])

/-- Rule generation for one image tag: `_get_image_config` may fail with a
`KeyError` before any rule for the image is emitted. -/
def imageRulesFor (s : SingularityState) (d : ImageDefinition) (tag : String) :
    Except String (List Rule) :=
  (get_image_config s tag d).map (fun cfg => imageRulesFromConfig s cfg)

/-- `_get_image_install_rules`: all definitions, all tags, in
configuration order. -/
def get_image_install_rules (s : SingularityState) : Except String (List Rule) :=
  s.definitions.foldlM (fun acc d =>
    d.tags.foldlM (fun acc2 tag => do
      let r ← imageRulesFor s d tag
      pure (acc2 ++ r)) acc) []

/-- `_get_directory_creation_rules` of the Singularity builder. -/
def singularityDirectoryRules (s : SingularityState) : List Rule :=
  [ .log ("Creating tmpdir directory: " ++ s.tmpdir),
    .python (.makedirs s.tmpdir (some 493)),
    .log ("Creating cache directory: " ++ s.source_cache),
    .python (.makedirs s.source_cache (some 493)),
    .log ("Creating build stage directory: " ++ s.build_stage),
    .python (.makedirs s.build_stage (some 493)),
    .log ("Creating installation directory: " ++ s.install_path),
    .python (.makedirs s.install_path (some 493)),
    .log ("Creating module directory: " ++ s.module_path),
    .python (.makedirs s.module_path (some 493)) ]

/-- `_get_modulefile_clean_rules`. -/
def modulefileCleanRules : List Rule :=
  [ .log "Cleaning previous modulefiles.", .python .cleanModulesCall ]

/-- `_get_rules` of the Singularity builder. -/
def singularityGetRules (s : SingularityState) : Except String (List Rule) := do
  let r ← get_image_install_rules s
  pure (singularityDirectoryRules s ++ modulefileCleanRules ++ r)

/-! ### Modulefile write and global clean (`_write_modulefile`, `_clean_modules`)

These two functions act on the filesystem, modelled structurally: a file
is a directory (list of path components, each component atomic) plus a
filename stem and extension, so `'%s.lua' % tag` is the entry with stem
`tag` and extension `lua`, and the glob `module_path/*/*.lua` matches
exactly the `lua`-extension files one directory level below the module
root. -/

/-- A filesystem entry: directory components, filename stem, extension. -/
structure FileEnt where
  dir : List String
  stem : String
  ext : String
deriving DecidableEq, Repr

/-- The parameter mapping substituted into the modulefile template
(template rendering is an external pure function per the spec, so the
mapping itself is the modelled content). -/
structure ModulefileParams where
  wrapper_path : String
  name : String
  tag : String
  image_file : String
  flags : String
deriving DecidableEq, Repr

/-- `_write_modulefile`: create the module directory, and write
`module_path/tag.lua` from the template — unless a file already exists at
that path, in which case the rule raises (`RuleError`) instead of
overwriting. -/
def write_modulefile (files : List FileEnt) (wrapper_path name tag flags image_file : String)
    (module_path : List String) : Except String (FileEnt × ModulefileParams) :=
  let modulefile : FileEnt := { dir := module_path, stem := tag, ext := "lua" }
  if files.contains modulefile then
    .error ("Modulefile " ++ tag ++ ".lua already exists")
  else
    .ok (modulefile, { wrapper_path, name, tag, image_file, flags })

/-- `_clean_modules`: remove every file matching the glob
`self._module_path/*/*.lua` — an extension-`lua` file exactly one
directory below the module root. -/
def clean_modules (module_path : List String) (files : List FileEnt) : List FileEnt :=
  files.filter (fun f =>
    !(decide (f.dir.length = module_path.length + 1 ∧
              f.dir.take module_path.length = module_path ∧ f.ext = "lua")))

/-! ### Anaconda builder -/

/-- The builder state `AnacondaBuilder` carries when generating rules. -/
structure AnacondaState where
  source_cache : String
  build_stage : String
  install_path : String
  module_path : String
  installer_checksums : List (String × String) := []
  installed_environments : List (String × EnvConfig) := []
  env_path : List String := []
  environments : List EnvironmentDefinition := []
deriving Repr

/-- Installer file name from `_get_installer_path`. -/
def installerNameOf (c : EnvConfig) : String :=
  (if c.miniconda then "Miniconda" else "Anaconda") ++ toString c.python_version ++
    "-" ++ c.installer_version ++ "-Linux-x86_64.sh"

/-- `_get_installer_path`: the cached installer location. -/
def get_installer_path (s : AnacondaState) (c : EnvConfig) : String :=
  s.source_cache ++ "/" ++ installerNameOf c

/-- The checksum verification performed inside `_download_installer` when
the rule executes (the download itself is external network IO):
a configured non-empty expected checksum that differs from the checksum
calculated from the cached installer file raises
`Exception('Invalid checksum for installer')`. -/
def downloadInstallerVerify (installer_checksums : List (String × String))
    (installer : String) (calculated_checksum : String) : Except String Unit :=
  let checksum := (lookupAssoc installer_checksums installer).getD ""
  if checksum ≠ "" then
    if calculated_checksum ≠ checksum then .error "Invalid checksum for installer"
    else .ok ()
  else .ok ()

/-- `_get_stage_path`: `build_stage/name-version-checksum_small`. -/
def anacondaStagePath (s : AnacondaState) (c : EnvConfig) : String :=
  s.build_stage ++ "/" ++ c.name ++ "-" ++ c.version ++ "-" ++ c.checksum_small

/-- `_get_install_path`: `install_path/name/version/checksum_small`. -/
def anacondaInstallPath (s : AnacondaState) (c : EnvConfig) : String :=
  s.install_path ++ "/" ++ c.name ++ "/" ++ c.version ++ "/" ++ c.checksum_small

/-- `_get_module_path`: `module_path/name`. -/
def anacondaModulePath (s : AnacondaState) (c : EnvConfig) : String :=
  s.module_path ++ "/" ++ c.name

/-- Per-environment rules from the body of
`_get_environment_install_rules`: the installer/stage rules are emitted
only when the environment name is absent from the installed store (the
recorded fingerprint is never consulted); the condarc verification,
optional conda install, copy into the install root, and state update are
emitted unconditionally. -/
def envRulesFor (s : AnacondaState) (e : EnvironmentDefinition) : List Rule :=
  let config := create_environment_config e
  let installer := get_installer_path s config
  let stage_path := anacondaStagePath s config
  let install_path := anacondaInstallPath s config
  let module_path := anacondaModulePath s config
  let conda_env := [("PATH", String.intercalate ":" ((stage_path ++ "/bin") :: s.env_path))]
  let conda_install_cmd := ["conda", "install", "--yes", "-n", "base"]
  (if (lookupAssoc s.installed_environments config.environment_name).isNone then
    [ .log ("Environment \x7bname\x7d not found.\nInstalling conda environment \x27" ++
        config.name ++ "\x27 with module \x27" ++ config.environment_name ++ "\x27"),
      .python (.downloadInstallerCall config),
      .python (.prepareInstallationPaths stage_path install_path module_path),
      .subprocess ["bash", installer, "-f", "-b", "-p", stage_path] [] ]
   else []) ++
  [ .log "Verifying that only the environment condarc is utilized",
    .python (.verifyCondarc install_path conda_env) ] ++
  (if config.conda_packages ≠ [] then
    [ .subprocess (conda_install_cmd ++ config.conda_packages) conda_env ]
   else []) ++
  [ .python (.copyDir stage_path install_path),
    .python (.updateInstalledEnvironments config.environment_name config) ]

/-- `_get_environment_install_rules`: all environments in configuration
order. -/
def get_environment_install_rules (s : AnacondaState) : List Rule :=
  s.environments.foldl (fun acc e => acc ++ envRulesFor s e) []

/-! ### Deployment dispatcher (`buildrules/common/deployer.py`) -/

/-- A deployment declaration; `method` is required by
`DEPLOYMENTCONFIG_SCHEMA`, the strategy-specific keys are optional until
the per-class schema validation. -/
structure DeployerConfig where
  method : String
  target_host : Option String := none
  source : Option String := none
  dest : Option String := none
  working_directory : Option String := none
  chmod_options : Option String := none
  rsync_flags : Option String := none
  ssh_command : Option String := none
  delete : Option Bool := none
  dest_container : Option String := none
  source_replacement : Option String := none
  os_secrets_file : Option String := none
deriving DecidableEq, Repr

/-- The two deployment strategies registered in `deployer_factory`. -/
inductive DeployerKind where
  | rsync
  | swift
deriving DecidableEq, Repr

/-- The `deployer_classes` dispatch table of `deployer_factory`. -/
def deployer_classes : List (String × DeployerKind) :=
  [("rsync", .rsync), ("swift", .swift)]

/-- An instantiated deployment strategy. -/
structure DeployerInst where
  kind : DeployerKind
  config : DeployerConfig
deriving DecidableEq, Repr

/-- `RsyncDeployer.DEPLOYER_SCHEMA` required keys (besides `method`). -/
def validateRsync (c : DeployerConfig) : Bool :=
  c.target_host.isSome && c.source.isSome && c.dest.isSome

/-- `SwiftDeployer.DEPLOYER_SCHEMA` required keys (besides `method`);
the secrets file read and its own schema check are external IO. -/
def validateSwift (c : DeployerConfig) : Bool :=
  c.dest_container.isSome && c.source.isSome && c.os_secrets_file.isSome

/-- Constructing a deployer validates the declaration against the
class-specific schema (`Deployer.__init__` calls `validate`). -/
def instantiateDeployer (k : DeployerKind) (c : DeployerConfig) : Except String DeployerInst :=
  match k with
  | .rsync => if validateRsync c then .ok ⟨.rsync, c⟩ else .error "ValidationError"
  | .swift => if validateSwift c then .ok ⟨.swift, c⟩ else .error "ValidationError"

/-- `deployer_factory`: for each declaration in order, look the `method`
up in `deployer_classes` (an unknown method raises `KeyError` before any
constructor runs for that declaration) and instantiate the class. -/
def deployer_factory : List DeployerConfig → Except String (List DeployerInst)
  | [] => .ok []
  | c :: rest =>
    match lookupAssoc deployer_classes c.method with
    | none => .error ("KeyError: " ++ c.method)
    | some k => do
      let d ← instantiateDeployer k c
      let ds ← deployer_factory rest
      pure (d :: ds)

/-! ### Rule discriminators and concrete fixtures -/

/-- Is this rule a copy-directory action (`_copy_dir`)? -/
def Rule.isCopyDir : Rule → Bool
  | .python (.copyDir _ _) => true
  | _ => false

/-- Is this rule the `bash <installer>` build subprocess? -/
def Rule.isBashBuild : Rule → Bool
  | .subprocess ("bash" :: _) _ => true
  | _ => false

/-- Boolean success discriminator for `Except`. -/
def exceptOk {α : Type} : Except String α → Bool
  | .ok _ => true
  | .error _ => false

/-- Fixture: an image definition with no optional fields. -/
def wDef : ImageDefinition := { name := "ubuntu", tags := ["18.04"] }

/-- Fixture: a Singularity builder state with empty collections and an
empty installed store. -/
def wState : SingularityState :=
  { build_stage := "/stage", install_path := "/apps", module_path := "/mods",
    source_cache := "/cache", tmpdir := "/tmp", uid := 1000, auths := [],
    command_collections := [], flag_collections := [] }

/-- The image config `_get_image_config` computes for `wDef` in `wState`
(checked by `rfl` against `get_image_config` below). -/
def wCfg : ImageConfig :=
  { registry := "docker.io", docker_user := "library", docker_image := "ubuntu",
    tag := "18.04", name := "ubuntu", debug := none, «sudo» := none, fakeroot := none,
    module_versions := none, module_name := "ubuntu/18.04", commands := [],
    checksum :=
      { registry := "docker.io", docker_user := "library", docker_image := "ubuntu",
        tag := "18.04", name := "ubuntu", debug := none, «sudo» := none, fakeroot := none,
        module_versions := none, module_name := "ubuntu/18.04", commands := [] },
    checksum_small := "docker.i", nameformat := "ubuntu-18.04-docker.i",
    docker_url := "library/ubuntu:18.04", flags := "" }

/-- Fixture: `wState` with `ubuntu/18.04` recorded as installed with the
fingerprint `get_image_config` currently computes for it. -/
def wStateInstalled : SingularityState :=
  { wState with installed_images :=
      [("ubuntu/18.04", { checksum := some wCfg.checksum,
                          image_file := "/apps/ubuntu/18.04/images/ubuntu-18.04-docker.i.simg" })] }

/-- Fixture: `wState` with `ubuntu/18.04` recorded as installed with a
different fingerprint, and the remove-after-update policy enabled. -/
def wStateStale : SingularityState :=
  { wState with
      remove_after_update := some true,
      installed_images :=
        [("ubuntu/18.04",
          { checksum := some { wCfg.checksum with docker_image := "old-ubuntu" },
            image_file := "/apps/old/ubuntu.simg" })] }

/-- Fixture: flag collection `opts` with contents `-B /a`. -/
def flagStateA : SingularityState :=
  { wState with flag_collections := [("opts", ["-B", "/a"])] }

/-- Fixture: flag collection `opts` with contents `-B /b`. -/
def flagStateB : SingularityState :=
  { wState with flag_collections := [("opts", ["-B", "/b"])] }

/-- Fixture: an image definition referencing the `opts` flag collection. -/
def flagDef : ImageDefinition :=
  { name := "ubuntu", tags := ["18.04"], flag_collections := some ["opts"] }

/-- Fixture: an environment entry with only the required fields. -/
def envToolsDef : EnvironmentDefinition := { name := "tools", version := "1.0" }

/-- The config `_create_environment_config` computes for `envToolsDef`. -/
def envToolsCfg : EnvConfig := create_environment_config envToolsDef

/-- Fixture: an Anaconda builder state with an empty installed store. -/
def anacondaFreshState : AnacondaState :=
  { source_cache := "/cache", build_stage := "/stage", install_path := "/apps",
    module_path := "/mods", environments := [envToolsDef] }

/-- Fixture: `tools/1.0` recorded as installed with exactly the
fingerprint currently computed from its configuration entry. -/
def anacondaInstalledEqualState : AnacondaState :=
  { anacondaFreshState with installed_environments := [("tools/1.0", envToolsCfg)] }

/-- Fixture: `tools/1.0` recorded as installed with the fingerprint of a
configuration that listed an extra conda package — a stale record. -/
def anacondaInstalledStaleState : AnacondaState :=
  { anacondaFreshState with installed_environments :=
      [("tools/1.0",
        create_environment_config { name := "tools", version := "1.0",
                                    conda_packages := some ["scipy"] })] }

/-- Fixture: an expected checksum is configured for the installer that
`tools/1.0` uses. -/
def anacondaChecksumState : AnacondaState :=
  { anacondaFreshState with installer_checksums :=
      [("Miniconda3-latest-Linux-x86_64.sh", "aaa")] }

/-- Fixture: an image definition referencing a command collection absent
from the build configuration. -/
def missingDef : ImageDefinition :=
  { name := "u", tags := ["1"], command_collections := some ["nope"] }

/-- Fixture: a valid rsync declaration followed by a declaration with an
unrecognized method. -/
def badDeployList : List DeployerConfig :=
  [ { method := "rsync", target_host := some "host", source := some "/src",
      dest := some "/dst" },
    { method := "ftp" } ]

/-! ### Shared lemmas -/

/-- Inverting `get_image_config`: the fingerprint of a successfully
computed image config is exactly the canonical record of the defaulted
entry fields, the derived module name and the key-sorted merged
commands — and nothing else (in particular no flag data). -/
theorem get_image_config_checksum_eq (s : SingularityState) (tag : String)
    (d : ImageDefinition) (cfg : ImageConfig) (h : get_image_config s tag d = .ok cfg) :
    cfg.checksum =
      { registry := d.registry.getD "docker.io", docker_user := d.docker_user.getD "library",
        docker_image := d.docker_image.getD d.name, tag := tag, name := d.name,
        debug := d.debug, «sudo» := d.«sudo», fakeroot := d.fakeroot,
        module_versions := d.module_versions, module_name := d.name ++ "/" ++ tag,
        commands := sortPairsByKey cfg.commands } := by
  rcases hm : mergeCommands s.command_collections (d.command_collections.getD []) [] with e | cmds <;>
    rcases hf : mergeFlags s.flag_collections (d.flag_collections.getD []) [] with e2 | fl <;>
    simp only [get_image_config, hm, hf, bind, Except.bind, pure] at h
  · cases h
  · cases h
  · cases h
  · cases h
    rfl

/-- A referenced command-collection name missing from the builder mapping
makes the merge fail with a `KeyError`. -/
theorem mergeCommands_missing_key (colls : List (String × List (String × List String))) :
    ∀ (names : List String) (acc : List (String × List String)),
      (∃ n ∈ names, lookupAssoc colls n = none) →
      ∃ msg, mergeCommands colls names acc = .error msg := by
  intro names
  induction names with
  | nil => rintro acc ⟨n, hn, _⟩; cases hn
  | cons n0 rest ih =>
    rintro acc ⟨n, hn, hnone⟩
    rcases List.mem_cons.mp hn with rfl | hmem
    · exact ⟨"KeyError: " ++ n, by simp [mergeCommands, hnone]⟩
    · rcases hl : lookupAssoc colls n0 with _ | coll
      · exact ⟨"KeyError: " ++ n0, by simp [mergeCommands, hl]⟩
      · obtain ⟨msg, hmsg⟩ :=
          ih (coll.foldl (fun a p => updateAssoc a (p.1.replace "_commands" "") p.2) acc)
            ⟨n, hmem, hnone⟩
        exact ⟨msg, by simp [mergeCommands, hl, hmsg]⟩

/-- A referenced flag-collection name missing from the builder mapping
makes the merge fail with a `KeyError`. -/
theorem mergeFlags_missing_key (colls : List (String × List String)) :
    ∀ (names : List String) (acc : List String),
      (∃ n ∈ names, lookupAssoc colls n = none) →
      ∃ msg, mergeFlags colls names acc = .error msg := by
  intro names
  induction names with
  | nil => rintro acc ⟨n, hn, _⟩; cases hn
  | cons n0 rest ih =>
    rintro acc ⟨n, hn, hnone⟩
    rcases List.mem_cons.mp hn with rfl | hmem
    · exact ⟨"KeyError: " ++ n, by simp [mergeFlags, hnone]⟩
    · rcases hl : lookupAssoc colls n0 with _ | fl
      · exact ⟨"KeyError: " ++ n0, by simp [mergeFlags, hl]⟩
      · obtain ⟨msg, hmsg⟩ := ih (acc ++ fl) ⟨n, hmem, hnone⟩
        exact ⟨msg, by simp [mergeFlags, hl, hmsg]⟩

/-- A fresh Anaconda environment (name absent from the installed store)
yields the install sequence in this order: log, installer
download-and-verify action, directory preparation action, `bash`
installer build subprocess, a middle segment (condarc verification and
the optional conda install), and finally the copy-into-install-root and
state-update actions. -/
theorem envRulesFor_fresh_decomposition (s : AnacondaState) (e : EnvironmentDefinition)
    (habs : lookupAssoc s.installed_environments
      (create_environment_config e).environment_name = none) :
    ∃ msg mid, envRulesFor s e =
      ([Rule.log msg,
        .python (.downloadInstallerCall (create_environment_config e)),
        .python (.prepareInstallationPaths (anacondaStagePath s (create_environment_config e))
           (anacondaInstallPath s (create_environment_config e))
           (anacondaModulePath s (create_environment_config e))),
        .subprocess ["bash", get_installer_path s (create_environment_config e), "-f", "-b", "-p",
           anacondaStagePath s (create_environment_config e)] []] ++ mid ++
       [.python (.copyDir (anacondaStagePath s (create_environment_config e))
           (anacondaInstallPath s (create_environment_config e))),
        .python (.updateInstalledEnvironments (create_environment_config e).environment_name
           (create_environment_config e))]) := by
  refine ⟨"Environment \x7bname\x7d not found.\nInstalling conda environment \x27" ++
      (create_environment_config e).name ++ "\x27 with module \x27" ++
      (create_environment_config e).environment_name ++ "\x27",
    [.log "Verifying that only the environment condarc is utilized",
     .python (.verifyCondarc (anacondaInstallPath s (create_environment_config e))
        [("PATH", String.intercalate ":"
            ((anacondaStagePath s (create_environment_config e) ++ "/bin") :: s.env_path))])] ++
    (if (create_environment_config e).conda_packages ≠ [] then
       [Rule.subprocess (["conda", "install", "--yes", "-n", "base"] ++
            (create_environment_config e).conda_packages)
          [("PATH", String.intercalate ":"
              ((anacondaStagePath s (create_environment_config e) ++ "/bin") :: s.env_path))]]
     else []), ?_⟩
  simp [envRulesFor, habs]

/-! ### Claim C1 -/

/-- Claim C1 counterexample: in the Anaconda builder, the environment
`tools/1.0` is present in the installed store with a fingerprint equal to
the one computed from its configuration entry, yet the generated plan
for it is not just a skip Log rule (plus modulefile rule): it contains
non-Log rules, among them the side-effecting copy-into-install-root
action; the claim as stated is false for this plan generator. -/
theorem C1_anaconda_counterexample :
    (lookupAssoc anacondaInstalledEqualState.installed_environments
        envToolsCfg.environment_name = some envToolsCfg) ∧
    envToolsCfg.checksum = (create_environment_config envToolsDef).checksum ∧
    (envRulesFor anacondaInstalledEqualState envToolsDef).any (fun r => !r.isLog) = true ∧
    (envRulesFor anacondaInstalledEqualState envToolsDef).any Rule.isCopyDir = true := by
  exact ⟨rfl, rfl, rfl, rfl⟩

/-- Claim C1 (amended to the Singularity builder): a target whose module
name is present in the loaded installed store with a fingerprint equal to
the one computed from its configuration entry gets exactly the skip Log
rule plus the always-regenerated modulefile rules (one Log, one action);
no build/process rule is emitted, so a second run with unchanged
configuration emits no build rules for it. -/
theorem C1_singularity_skip_only (s : SingularityState) (d : ImageDefinition) (tag : String)
    (cfg : ImageConfig) (hcfg : get_image_config s tag d = .ok cfg)
    (hskip : installedChecksumOf s cfg.module_name = some cfg.checksum) :
    imageRulesFor s d tag = .ok
      [ .log ("Image " ++ cfg.module_name ++ " is already installed. Skipping installation."),
        .log ("Writing modulefile for " ++ cfg.module_name),
        .python (.writeModulefileCall cfg.name cfg.tag cfg.flags
          (imagePathsFor s cfg).install_image (imagePathsFor s cfg).module_path) ] := by
  simp only [imageRulesFor, hcfg, Except.map, imageRulesFromConfig, hskip, moduleRuleSeq]
  simp

/-- Witness for C1: the installed fixture image gets exactly three rules. -/
theorem C1_skip_witness :
    (imageRulesFor wStateInstalled wDef "18.04").map List.length = .ok 3 := by
  rw [C1_singularity_skip_only wStateInstalled wDef "18.04" wCfg rfl rfl]
  rfl

/-! ### Claim C2 -/

/-- Claim C2 counterexample: two builder states identical except for the
contents of the referenced flag collection (`-B /a` versus `-B /b`)
produce image configs with different flags but *identical* checksums:
the flag-collection contents are popped before hashing, so they do not
reach the fingerprint, contradicting the claim. -/
theorem C2_flag_contents_counterexample :
    (get_image_config flagStateA "18.04" flagDef).map ImageConfig.checksum =
      (get_image_config flagStateB "18.04" flagDef).map ImageConfig.checksum ∧
    ((get_image_config flagStateA "18.04" flagDef).map ImageConfig.flags).toOption ≠
      ((get_image_config flagStateB "18.04" flagDef).map ImageConfig.flags).toOption := by
  refine ⟨rfl, ?_⟩
  decide

/-- Claim C2 (amended): the fingerprint is an injective function of the
hashed configuration — defaulted registry/docker-user/docker-image, tag,
name, the per-entry debug/sudo/fakeroot and module-version options, and
the canonicalized merged command contents — two configs have equal
checksums exactly when those agree; and the flag-collection contents are
excluded from hashing: changing only the builder's flag collections
never changes the checksum (the differing flags still reach the
modulefile, which is regenerated on every run). -/
theorem C2_checksum_sensitivity :
    (∀ (s1 s2 : SingularityState) (d1 d2 : ImageDefinition) (tag1 tag2 : String)
       (c1 c2 : ImageConfig),
      get_image_config s1 tag1 d1 = .ok c1 → get_image_config s2 tag2 d2 = .ok c2 →
      (c1.checksum = c2.checksum ↔
        (d1.registry.getD "docker.io" = d2.registry.getD "docker.io" ∧
         d1.docker_user.getD "library" = d2.docker_user.getD "library" ∧
         d1.docker_image.getD d1.name = d2.docker_image.getD d2.name ∧
         tag1 = tag2 ∧ d1.name = d2.name ∧
         d1.debug = d2.debug ∧ d1.«sudo» = d2.«sudo» ∧ d1.fakeroot = d2.fakeroot ∧
         d1.module_versions = d2.module_versions ∧
         sortPairsByKey c1.commands = sortPairsByKey c2.commands))) ∧
    (∀ (s : SingularityState) (fc : List (String × List String)) (d : ImageDefinition)
       (tag : String) (c1 c2 : ImageConfig),
      get_image_config s tag d = .ok c1 →
      get_image_config { s with flag_collections := fc } tag d = .ok c2 →
      c2.checksum = c1.checksum ∧
        sortPairsByKey c2.commands = sortPairsByKey c1.commands) := by
  constructor
  · intro s1 s2 d1 d2 tag1 tag2 c1 c2 h1 h2
    rw [get_image_config_checksum_eq s1 tag1 d1 c1 h1,
      get_image_config_checksum_eq s2 tag2 d2 c2 h2]
    constructor
    · intro h
      injection h with h1 h2 h3 h4 h5 h6 h7 h8 h9 h10 h11
      exact ⟨h1, h2, h3, h4, h5, h6, h7, h8, h9, h11⟩
    · rintro ⟨e1, e2, e3, e4, e5, e6, e7, e8, e9, e10⟩
      rw [e5] at e3
      simp [e1, e2, e3, e4, e5, e6, e7, e8, e9, e10]
  · intro s fc d tag c1 c2 h1 h2
    rcases hm : mergeCommands s.command_collections (d.command_collections.getD []) [] with e | cmds <;>
      rcases hf1 : mergeFlags s.flag_collections (d.flag_collections.getD []) [] with e1 | fl1 <;>
      rcases hf2 : mergeFlags fc (d.flag_collections.getD []) [] with e2 | fl2 <;>
      simp only [get_image_config, hm, hf1, hf2, bind, Except.bind, pure] at h1 h2
    all_goals cases h1 <;> cases h2 <;> exact ⟨rfl, rfl⟩

/-- Witness for C2, at the flag fixtures: equal hashed fields give equal
checksums and changing only the flag contents keeps them equal. -/
theorem C2_checksum_witness :
    (({ wCfg with flags := "-B /a" } : ImageConfig).checksum =
      ({ wCfg with flags := "-B /b" } : ImageConfig).checksum) ∧
    sortPairsByKey ({ wCfg with flags := "-B /b" } : ImageConfig).commands =
      sortPairsByKey ({ wCfg with flags := "-B /a" } : ImageConfig).commands := by
  constructor
  · exact (C2_checksum_sensitivity.1 flagStateA flagStateB flagDef flagDef "18.04" "18.04"
      { wCfg with flags := "-B /a" } { wCfg with flags := "-B /b" } rfl rfl).mpr
      ⟨rfl, rfl, rfl, rfl, rfl, rfl, rfl, rfl, rfl, rfl⟩
  · exact (C2_checksum_sensitivity.2 flagStateA [("opts", ["-B", "/b"])] flagDef "18.04"
      { wCfg with flags := "-B /a" } { wCfg with flags := "-B /b" } rfl rfl).2

/-! ### Claim C3 -/

/-- Claim C3 counterexample: in the Anaconda builder a target present in
the installed store with a *different* recorded fingerprint (stale) does
not get the full install sequence a fresh target gets — the `bash`
installer build rule is absent, while a fresh run of the same entry does
contain it; the classification consults only name presence. -/
theorem C3_anaconda_counterexample :
    (lookupAssoc anacondaInstalledStaleState.installed_environments
        envToolsCfg.environment_name).isSome = true ∧
    (create_environment_config
        { name := "tools", version := "1.0", conda_packages := some ["scipy"] }).checksum ≠
      envToolsCfg.checksum ∧
    (envRulesFor anacondaInstalledStaleState envToolsDef).any Rule.isBashBuild = false ∧
    (envRulesFor anacondaFreshState envToolsDef).any Rule.isBashBuild = true := by
  refine ⟨rfl, by decide, rfl, rfl⟩

/-- Claim C3 (amended to the Singularity builder): a target present in
the installed store with a recorded fingerprint different from the
computed one gets exactly the update Log rule followed by the same full
install sequence a fresh target gets, the modulefile rules, and — if and
only if the `remove_after_update` option is enabled — a cleanup rule
removing the previously installed image file, positioned after all
install rules. -/
theorem C3_singularity_stale_rules (s : SingularityState) (d : ImageDefinition) (tag : String)
    (cfg : ImageConfig) (st : StoredImage) (ic : ImageHashSource)
    (hcfg : get_image_config s tag d = .ok cfg)
    (hlook : lookupAssoc s.installed_images cfg.module_name = some st)
    (hic : st.checksum = some ic) (hne : ic ≠ cfg.checksum) :
    (imageRulesFor s d tag = .ok
      ((.log ("Image " ++ cfg.module_name ++ " installed but marked for update.") ::
        (imageInstallRuleSeq s cfg ++ moduleRuleSeq s cfg)) ++
       (if s.remove_after_update.getD false then
         [ .log ("Removing old environment from " ++ st.image_file),
           .python (.osRemove st.image_file) ]
        else []))) ∧
    (∀ (s2 : SingularityState) (d2 : ImageDefinition) (tag2 : String) (cfg2 : ImageConfig),
      get_image_config s2 tag2 d2 = .ok cfg2 →
      installedChecksumOf s2 cfg2.module_name = none →
      imageRulesFor s2 d2 tag2 = .ok
        (.log ("Image " ++ cfg2.module_name ++ " is not installed. Starting installation.") ::
          (imageInstallRuleSeq s2 cfg2 ++ moduleRuleSeq s2 cfg2))) := by
  constructor
  · have hchk : installedChecksumOf s cfg.module_name = some ic := by
      simp [installedChecksumOf, hlook, hic]
    simp only [imageRulesFor, hcfg, Except.map, imageRulesFromConfig, hchk, hlook]
    simp [hne]
  · intro s2 d2 tag2 cfg2 hcfg2 hchk2
    simp only [imageRulesFor, hcfg2, Except.map, imageRulesFromConfig, hchk2]

/-- Witness for C3: the stale fixture (with remove-after-update enabled)
generates the update message, the full install sequence, the modulefile
rules and the trailing cleanup pair — twenty rules in all. -/
theorem C3_stale_witness :
    (imageRulesFor wStateStale wDef "18.04").map List.length = .ok 20 := by
  rw [(C3_singularity_stale_rules wStateStale wDef "18.04" wCfg
    { checksum := some { wCfg.checksum with docker_image := "old-ubuntu" },
      image_file := "/apps/old/ubuntu.simg" }
    { wCfg.checksum with docker_image := "old-ubuntu" } rfl rfl rfl (by decide)).1]
  rfl

/-! ### Claim C4 -/

/-- Claim C4: plan ordering.  (i) For every Singularity target that is
not skipped (fresh or stale), the emitted rules decompose as: the log
rule and the five directory-preparation rules first, then the build
subprocess rule, then the copy-into-install-root rule, then the
state-store-update rule, in that order.  (ii) For every fresh Anaconda
environment, the directory-preparation rule precedes the `bash` build
rule, and the copy rule precedes the state-update rule.  (iii) For every
Anaconda environment, the state-update rule is the last rule, directly
after the copy-into-install-root rule.  The order never records success
before the artifact exists at its recorded path. -/
theorem C4_plan_ordering :
    (∀ (s : SingularityState) (d : ImageDefinition) (tag : String) (cfg : ImageConfig),
      get_image_config s tag d = .ok cfg →
      installedChecksumOf s cfg.module_name ≠ some cfg.checksum →
      ∃ msg mid1 mid2 mid3 tail, imageRulesFor s d tag = .ok
        ((Rule.log msg :: singularityPrepRules s cfg) ++ mid1 ++
          [singularityBuildRule s cfg] ++ mid2 ++
          [.python (.copyFile (imagePathsFor s cfg).stage_image
            (imagePathsFor s cfg).install_image)] ++ mid3 ++
          [.python (.updateInstalledImages cfg.module_name (storedFromConfig s cfg))] ++ tail)) ∧
    (∀ (s : AnacondaState) (e : EnvironmentDefinition),
      lookupAssoc s.installed_environments
        (create_environment_config e).environment_name = none →
      ∃ msg mid, envRulesFor s e =
        ([Rule.log msg,
          .python (.downloadInstallerCall (create_environment_config e)),
          .python (.prepareInstallationPaths (anacondaStagePath s (create_environment_config e))
             (anacondaInstallPath s (create_environment_config e))
             (anacondaModulePath s (create_environment_config e))),
          .subprocess ["bash", get_installer_path s (create_environment_config e), "-f", "-b",
             "-p", anacondaStagePath s (create_environment_config e)] []] ++ mid ++
         [.python (.copyDir (anacondaStagePath s (create_environment_config e))
             (anacondaInstallPath s (create_environment_config e))),
          .python (.updateInstalledEnvironments (create_environment_config e).environment_name
             (create_environment_config e))])) ∧
    (∀ (s : AnacondaState) (e : EnvironmentDefinition),
      ∃ mid, envRulesFor s e = mid ++
        [.python (.copyDir (anacondaStagePath s (create_environment_config e))
            (anacondaInstallPath s (create_environment_config e))),
         .python (.updateInstalledEnvironments (create_environment_config e).environment_name
            (create_environment_config e))]) := by
  refine ⟨?_, ?_, ?_⟩
  · intro s d tag cfg hcfg hns
    rcases hchk : installedChecksumOf s cfg.module_name with _ | ic
    · refine ⟨"Image " ++ cfg.module_name ++ " is not installed. Starting installation.",
        [.log ("Writing definition file for " ++ cfg.module_name),
         .python (.writeDefinitionFile (imagePathsFor s cfg).stage_definition cfg.registry
           cfg.docker_url cfg.commands),
         .log ("Building image for " ++ cfg.module_name)],
        (if effectiveFlag cfg.«sudo» s.config_sudo then
            [Rule.subprocess (chownCmdFor s.uid (effectiveFlag cfg.«sudo» s.config_sudo) ++
              [(imagePathsFor s cfg).stage_image]) []]
          else []) ++ [.log "Copying staged image to installation directory"],
        [.log "Copying definition file to installation directory",
         .python (.copyFile (imagePathsFor s cfg).stage_definition
           (imagePathsFor s cfg).install_definition),
         .log "Updating installed images"],
        moduleRuleSeq s cfg, ?_⟩
      simp only [imageRulesFor, hcfg, Except.map, imageRulesFromConfig, hchk]
      simp [imageInstallRuleSeq, singularityPrepRules]
    · have hne : ic ≠ cfg.checksum := fun h => hns (by rw [hchk, h])
      refine ⟨"Image " ++ cfg.module_name ++ " installed but marked for update.",
        [.log ("Writing definition file for " ++ cfg.module_name),
         .python (.writeDefinitionFile (imagePathsFor s cfg).stage_definition cfg.registry
           cfg.docker_url cfg.commands),
         .log ("Building image for " ++ cfg.module_name)],
        (if effectiveFlag cfg.«sudo» s.config_sudo then
            [Rule.subprocess (chownCmdFor s.uid (effectiveFlag cfg.«sudo» s.config_sudo) ++
              [(imagePathsFor s cfg).stage_image]) []]
          else []) ++ [.log "Copying staged image to installation directory"],
        [.log "Copying definition file to installation directory",
         .python (.copyFile (imagePathsFor s cfg).stage_definition
           (imagePathsFor s cfg).install_definition),
         .log "Updating installed images"],
        moduleRuleSeq s cfg ++
          (if s.remove_after_update.getD false then
            [Rule.log ("Removing old environment from " ++
                ((lookupAssoc s.installed_images cfg.module_name).map
                  (fun st => st.image_file)).getD ""),
             Rule.python (.osRemove
                (((lookupAssoc s.installed_images cfg.module_name).map
                  (fun st => st.image_file)).getD ""))]
           else []), ?_⟩
      simp only [imageRulesFor, hcfg, Except.map, imageRulesFromConfig, hchk]
      rw [if_neg hne]
      simp [imageInstallRuleSeq, singularityPrepRules]
  · intro s e habs
    exact envRulesFor_fresh_decomposition s e habs
  · intro s e
    refine ⟨(if (lookupAssoc s.installed_environments
          (create_environment_config e).environment_name).isNone then
        [Rule.log ("Environment \x7bname\x7d not found.\nInstalling conda environment \x27" ++
            (create_environment_config e).name ++ "\x27 with module \x27" ++
            (create_environment_config e).environment_name ++ "\x27"),
         .python (.downloadInstallerCall (create_environment_config e)),
         .python (.prepareInstallationPaths (anacondaStagePath s (create_environment_config e))
            (anacondaInstallPath s (create_environment_config e))
            (anacondaModulePath s (create_environment_config e))),
         .subprocess ["bash", get_installer_path s (create_environment_config e), "-f", "-b",
            "-p", anacondaStagePath s (create_environment_config e)] []]
      else []) ++
      [.log "Verifying that only the environment condarc is utilized",
       .python (.verifyCondarc (anacondaInstallPath s (create_environment_config e))
          [("PATH", String.intercalate ":"
              ((anacondaStagePath s (create_environment_config e) ++ "/bin") :: s.env_path))])] ++
      (if (create_environment_config e).conda_packages ≠ [] then
         [Rule.subprocess (["conda", "install", "--yes", "-n", "base"] ++
              (create_environment_config e).conda_packages)
            [("PATH", String.intercalate ":"
                ((anacondaStagePath s (create_environment_config e) ++ "/bin") :: s.env_path))]]
       else []), ?_⟩
    simp [envRulesFor]

/-- Witness for C4: the ordering decompositions hold at the concrete
fixtures (fresh Singularity image, fresh and installed Anaconda
environments). -/
theorem C4_ordering_witness :
    exceptOk (imageRulesFor wState wDef "18.04") = true ∧
    4 ≤ (envRulesFor anacondaFreshState envToolsDef).length ∧
    2 ≤ (envRulesFor anacondaInstalledEqualState envToolsDef).length := by
  refine ⟨?_, ?_, ?_⟩
  · obtain ⟨msg, mid1, mid2, mid3, tail, h⟩ :=
      C4_plan_ordering.1 wState wDef "18.04" wCfg rfl (by decide)
    rw [h]; rfl
  · obtain ⟨msg, mid, h⟩ := C4_plan_ordering.2.1 anacondaFreshState envToolsDef rfl
    rw [h]; simp
  · obtain ⟨mid, h⟩ := C4_plan_ordering.2.2 anacondaInstalledEqualState envToolsDef
    rw [h]; simp

/-! ### Claim C5 -/

/-- Claim C5 counterexample: with an expected checksum configured for the
`tools/1.0` installer, plan generation does not abort — the plan still
contains the `bash` build subprocess rule — even though executing the
verification with a non-matching calculated checksum yields the
verification error; verification happens at rule-execution time, not at
plan-generation time. -/
theorem C5_plan_not_aborted_counterexample :
    lookupAssoc anacondaChecksumState.installer_checksums (installerNameOf envToolsCfg) =
      some "aaa" ∧
    downloadInstallerVerify anacondaChecksumState.installer_checksums
      (installerNameOf envToolsCfg) "bbb" = .error "Invalid checksum for installer" ∧
    (envRulesFor anacondaChecksumState envToolsDef).any Rule.isBashBuild = true := by
  exact ⟨rfl, rfl, rfl⟩

/-- Claim C5 (amended): the checksum check is deferred to execution, but
it still protects the build: (i) the plan for a fresh environment places
the download-and-verify action rule strictly before the `bash` build
rule, and (ii) executing the verification with a configured non-empty
expected checksum different from the calculated one yields the
verification error — so the fail-fast engine never reaches the build
rule of a corrupt installer. -/
theorem C5_verification_before_build :
    (∀ (s : AnacondaState) (e : EnvironmentDefinition),
      lookupAssoc s.installed_environments
        (create_environment_config e).environment_name = none →
      ∃ msg mid, envRulesFor s e =
        ([Rule.log msg,
          .python (.downloadInstallerCall (create_environment_config e)),
          .python (.prepareInstallationPaths (anacondaStagePath s (create_environment_config e))
             (anacondaInstallPath s (create_environment_config e))
             (anacondaModulePath s (create_environment_config e))),
          .subprocess ["bash", get_installer_path s (create_environment_config e), "-f", "-b",
             "-p", anacondaStagePath s (create_environment_config e)] []] ++ mid ++
         [.python (.copyDir (anacondaStagePath s (create_environment_config e))
             (anacondaInstallPath s (create_environment_config e))),
          .python (.updateInstalledEnvironments (create_environment_config e).environment_name
             (create_environment_config e))])) ∧
    (∀ (ics : List (String × String)) (installer calculated expected : String),
      lookupAssoc ics installer = some expected → expected ≠ "" → calculated ≠ expected →
      downloadInstallerVerify ics installer calculated =
        .error "Invalid checksum for installer") := by
  constructor
  · intro s e habs
    exact envRulesFor_fresh_decomposition s e habs
  · intro ics installer calculated expected hlook hexp hcalc
    simp [downloadInstallerVerify, hlook, hexp, hcalc]

/-- Witness for C5: the decomposition at the checksum fixture and the
verification error at a concrete mismatch. -/
theorem C5_verification_witness :
    4 ≤ (envRulesFor anacondaChecksumState envToolsDef).length ∧
    downloadInstallerVerify [("inst.sh", "aaa")] "inst.sh" "bbb" =
      .error "Invalid checksum for installer" := by
  constructor
  · obtain ⟨msg, mid, h⟩ :=
      C5_verification_before_build.1 anacondaChecksumState envToolsDef rfl
    rw [h]; simp
  · exact C5_verification_before_build.2 [("inst.sh", "aaa")] "inst.sh" "bbb" "aaa"
      rfl (by decide) (by decide)

/-! ### Claim C6 -/

/-- Claim C6 counterexample: an entry that explicitly sets `debug` to
false under a builder-global `debug: true` still resolves to true — the
resolution uses Python `or`, so the entry cannot override a global
true — and the build command then carries `-d`. -/
theorem C6_entry_false_counterexample :
    effectiveFlag (some false) (some true) = true ∧
    buildCmdFor (effectiveFlag (some false) (some true)) false false =
      ["singularity", "-d", "build"] := by
  decide

/-- Claim C6 (amended): each of the debug/sudo/fakeroot options resolves
to the disjunction of the entry-level value (defaulting to false) and the
builder-global value (defaulting to false); the build command carries
`-d` / a `sudo` prefix / `--fakeroot` exactly when the respective
disjunction holds, and absence at both levels yields false (no flag). -/
theorem C6_flag_resolution :
    ∀ (ed gd es gs ef gf : Option Bool),
      (("-d" ∈ buildCmdFor (effectiveFlag ed gd) (effectiveFlag es gs) (effectiveFlag ef gf)) ↔
        (ed.getD false = true ∨ gd.getD false = true)) ∧
      ((buildCmdFor (effectiveFlag ed gd) (effectiveFlag es gs) (effectiveFlag ef gf)).head? =
          some "sudo" ↔ (es.getD false = true ∨ gs.getD false = true)) ∧
      (("--fakeroot" ∈
          buildCmdFor (effectiveFlag ed gd) (effectiveFlag es gs) (effectiveFlag ef gf)) ↔
        (ef.getD false = true ∨ gf.getD false = true)) ∧
      ((ed = none ∧ gd = none) →
        "-d" ∉ buildCmdFor (effectiveFlag ed gd) (effectiveFlag es gs) (effectiveFlag ef gf)) := by
  decide

/-- Witness for C6: with every option absent at both levels no debug flag
is present, and an entry-level true turns it on. -/
theorem C6_resolution_witness :
    ("-d" ∉ buildCmdFor (effectiveFlag none none) (effectiveFlag none none)
      (effectiveFlag none none)) ∧
    ("-d" ∈ buildCmdFor (effectiveFlag (some true) none) (effectiveFlag none none)
      (effectiveFlag none none)) := by
  exact ⟨(C6_flag_resolution none none none none none none).2.2.2 ⟨rfl, rfl⟩,
    (C6_flag_resolution (some true) none none none none none).1.mpr (Or.inl rfl)⟩

/-! ### Claim C7 -/

/-- Claim C7 counterexample: `_write_modulefile` does not overwrite a
pre-existing modulefile — it fails (raises) when a file already exists at
the module path. -/
theorem C7_existing_file_counterexample :
    write_modulefile [{ dir := ["mods", "ubuntu"], stem := "18.04", ext := "lua" }]
      "/bin" "ubuntu" "18.04" "" "/img" ["mods", "ubuntu"] =
      .error "Modulefile 18.04.lua already exists" := by
  rfl

/-- Claim C7 (amended): the per-target write fails on a pre-existing
file, but the composite run behavior replaces wholesale: after the
run-initial global clean step removes every generated modulefile
(`module_path/*/*.lua`), the write always succeeds, and its content is
rendered purely from the template parameters — a pre-existing file is
never merged in. -/
theorem C7_clean_then_write (files : List FileEnt) (module_root : List String)
    (wrapper name tag flags image_file : String) :
    write_modulefile (clean_modules module_root files) wrapper name tag flags image_file
        (module_root ++ [name]) =
      .ok ({ dir := module_root ++ [name], stem := tag, ext := "lua" },
           { wrapper_path := wrapper, name, tag, image_file, flags }) := by
  have hmem : ({ dir := module_root ++ [name], stem := tag, ext := "lua" } : FileEnt) ∉
      clean_modules module_root files := by
    intro hmem
    have hp := (List.mem_filter.mp hmem).2
    simp [List.take_left] at hp
  unfold write_modulefile
  rw [if_neg (by simpa using hmem)]

/-! ### Claim C8 -/

/-- Claim C8: defaults are applied before hashing, so an entry omitting a
defaultable field and the same entry setting it explicitly to its
default value produce identical derived configs — in particular identical
`checksum` and `checksum_small` — for every defaultable field of both
builders (Anaconda: miniconda, python_version, installer_version,
pip_packages, conda_packages; Singularity: registry, docker_user,
docker_image). -/
theorem C8_omitted_equals_default :
    (∀ e : EnvironmentDefinition,
      create_environment_config { e with miniconda := none } =
        create_environment_config { e with miniconda := some true } ∧
      create_environment_config { e with python_version := none } =
        create_environment_config { e with python_version := some 3 } ∧
      create_environment_config { e with installer_version := none } =
        create_environment_config { e with installer_version := some "latest" } ∧
      create_environment_config { e with pip_packages := none } =
        create_environment_config { e with pip_packages := some [] } ∧
      create_environment_config { e with conda_packages := none } =
        create_environment_config { e with conda_packages := some [] }) ∧
    (∀ (s : SingularityState) (tag : String) (d : ImageDefinition),
      get_image_config s tag { d with registry := none } =
        get_image_config s tag { d with registry := some "docker.io" } ∧
      get_image_config s tag { d with docker_user := none } =
        get_image_config s tag { d with docker_user := some "library" } ∧
      get_image_config s tag { d with docker_image := none } =
        get_image_config s tag { d with docker_image := some d.name }) :=
  ⟨fun e => ⟨rfl, rfl, rfl, rfl, rfl⟩, fun s tag d => ⟨rfl, rfl, rfl⟩⟩

/-! ### Claim C9 -/

/-- Claim C9: a deployment declaration whose `method` is not a registered
strategy name (`rsync` or `swift`) makes `deployer_factory` fail with a
key-lookup configuration error; the unknown method is never a silent
no-op, and no strategy is instantiated for that declaration. -/
theorem C9_unknown_method_rejected (configs : List DeployerConfig) (c : DeployerConfig)
    (hmem : c ∈ configs) (hunknown : lookupAssoc deployer_classes c.method = none) :
    ∃ msg, deployer_factory configs = .error msg := by
  induction configs with
  | nil => cases hmem
  | cons c0 rest ih =>
    rcases List.mem_cons.mp hmem with rfl | hmem2
    · exact ⟨"KeyError: " ++ c.method, by simp [deployer_factory, hunknown]⟩
    · rcases hl : lookupAssoc deployer_classes c0.method with _ | k
      · exact ⟨"KeyError: " ++ c0.method, by simp [deployer_factory, hl]⟩
      · rcases hi : instantiateDeployer k c0 with e | d0
        · exact ⟨e, by simp [deployer_factory, hl, hi, bind, Except.bind]⟩
        · obtain ⟨msg, hmsg⟩ := ih hmem2
          exact ⟨msg, by simp [deployer_factory, hl, hi, hmsg, bind, Except.bind]⟩

/-- Witness for C9: the fixture list with an `ftp` declaration makes the
factory fail. -/
theorem C9_unknown_method_witness :
    exceptOk (deployer_factory badDeployList) = false := by
  obtain ⟨msg, h⟩ :=
    C9_unknown_method_rejected badDeployList { method := "ftp" } (by decide) rfl
  rw [h]; rfl

/-! ### Claim C10 -/

/-- Claim C10: an image definition referencing a command-collection or
flag-collection name absent from the build configuration mappings makes
`_get_image_config` fail with a key-lookup error, and rule generation for
that image fails with the same error before any rule for it is
emitted. -/
theorem C10_missing_collection_error (s : SingularityState) (d : ImageDefinition) (tag : String)
    (h : (∃ n ∈ d.command_collections.getD [], lookupAssoc s.command_collections n = none) ∨
         (∃ n ∈ d.flag_collections.getD [], lookupAssoc s.flag_collections n = none)) :
    ∃ msg, get_image_config s tag d = .error msg ∧ imageRulesFor s d tag = .error msg := by
  rcases hm : mergeCommands s.command_collections (d.command_collections.getD []) [] with e | cmds
  · exact ⟨e, by simp [get_image_config, hm, bind, Except.bind],
      by simp [imageRulesFor, get_image_config, hm, bind, Except.bind, Except.map]⟩
  · rcases h with hcmd | hflag
    · obtain ⟨msg, hmsg⟩ :=
        mergeCommands_missing_key s.command_collections (d.command_collections.getD []) [] hcmd
      rw [hm] at hmsg; cases hmsg
    · obtain ⟨msg, hmsg⟩ :=
        mergeFlags_missing_key s.flag_collections (d.flag_collections.getD []) [] hflag
      exact ⟨msg, by simp [get_image_config, hm, hmsg, bind, Except.bind],
        by simp [imageRulesFor, get_image_config, hm, hmsg, bind, Except.bind, Except.map]⟩

/-- Witness for C10: the fixture definition referencing the absent
collection `nope` fails config computation and rule generation. -/
theorem C10_missing_collection_witness :
    exceptOk (get_image_config wState "1" missingDef) = false ∧
    exceptOk (imageRulesFor wState missingDef "1") = false := by
  obtain ⟨msg, h1, h2⟩ :=
    C10_missing_collection_error wState missingDef "1" (Or.inl ⟨"nope", by decide, rfl⟩)
  rw [h1, h2]; exact ⟨rfl, rfl⟩
